import Mathlib

/-!
Verification of the MoniTe router-monitoring core: severity classifier,
alert dispatcher (cooldown), action execution pipeline (retry / persistence),
and the health monitor's flap-suppression state machine, shallowly embedded
from `backend/app/services/{severity,telegram,action_runner,health_monitor,scheduler}.py`
and `backend/app/drivers/__init__.py`.
-/

/-! ## Severity classifier (`services/severity.py`) -/

/-- Band entry of the thresholds dict: `{"days": ..., "data_mb": ...}`, each
field possibly absent or null (Python `b.get("days", 0) or 0`). -/
structure SevBand where
  days : Option Int
  data_mb : Option Int
deriving DecidableEq

/-- Thresholds dict with the three band keys, each possibly absent
(`thresholds.get(name) or {}`). -/
structure SeverityThresholds where
  critical : Option SevBand
  high : Option SevBand
  medium : Option SevBand
deriving DecidableEq

/-- Model of the local helper `band(name)` in `evaluate_severity`: a missing
band or missing/null field collapses to 0. -/
def bandOf (b : Option SevBand) : Int × Int :=
  match b with
  | none => (0, 0)
  | some c => (c.days.getD 0, c.data_mb.getD 0)

/-- Embedding of `evaluate_severity(datos_mb, validos_dias, thresholds)`.
Floats are modelled by rationals; the three guards are transcribed from the
source, in source order. -/
def evaluate_severity (datos_mb : Option ℚ) (validos_dias : Option Int)
    (thresholds : SeverityThresholds) : Option String :=
  let cb := bandOf thresholds.critical
  let hb := bandOf thresholds.high
  let mb := bandOf thresholds.medium
  if ((match validos_dias with
        | some v => decide (0 < cb.1) && decide (v ≤ cb.1)
        | none => false) ||
      (match datos_mb with
        | some d => decide (0 < cb.2) && decide (d < (cb.2 : ℚ))
        | none => false)) then
    some "CRÍTICO"
  else if ((match validos_dias with
        | some v => decide (0 < hb.1) && decide (v ≤ hb.1)
        | none => false) ||
      (match datos_mb with
        | some d => decide (0 < hb.2) && decide (d < (hb.2 : ℚ))
        | none => false)) then
    some "ALTA"
  else if ((match validos_dias with
        | some v => decide (0 < mb.1) && decide (v ≤ mb.1)
        | none => false) ||
      (match datos_mb with
        | some d => decide (0 < mb.2) && decide (d < (mb.2 : ℚ))
        | none => false)) then
    some "MEDIA"
  else
    none

/-- Spec-side band-match condition, following the claim's words: the band's
day threshold is positive and `daysValid` is at or below it, OR the band's MB
threshold is positive and `dataRemainingMb` is strictly below it. -/
def bandMatches (band : Int × Int) (datos_mb : Option ℚ) (validos_dias : Option Int) : Bool :=
  (match validos_dias with
    | some v => decide (0 < band.1) && decide (v ≤ band.1)
    | none => false) ||
  (match datos_mb with
    | some d => decide (0 < band.2) && decide (d < (band.2 : ℚ))
    | none => false)

/-- Spec-side classifier: first matching band in strict priority order
critical, high, medium; `none` when no band matches. -/
def classify_spec (datos_mb : Option ℚ) (validos_dias : Option Int)
    (thresholds : SeverityThresholds) : Option String :=
  if bandMatches (bandOf thresholds.critical) datos_mb validos_dias then some "CRÍTICO"
  else if bandMatches (bandOf thresholds.high) datos_mb validos_dias then some "ALTA"
  else if bandMatches (bandOf thresholds.medium) datos_mb validos_dias then some "MEDIA"
  else none

/-- A band whose two effective thresholds are both 0 matches no input. -/
lemma bandMatches_zero (datos_mb : Option ℚ) (validos_dias : Option Int) :
    bandMatches (0, 0) datos_mb validos_dias = false := by
  cases datos_mb <;> cases validos_dias <;> simp [bandMatches]

/-- C1: the severity classifier evaluates bands in strict priority order
critical, high, medium; a band matches exactly under the stated OR condition;
the result is the first matching band's tier, and none when no band matches;
a band whose two effective thresholds are both 0 is never returned. -/
theorem evaluate_severity_priority_and_disabled
    (datos_mb : Option ℚ) (validos_dias : Option Int) (t : SeverityThresholds) :
    evaluate_severity datos_mb validos_dias t = classify_spec datos_mb validos_dias t ∧
    (bandOf t.critical = (0, 0) → evaluate_severity datos_mb validos_dias t ≠ some "CRÍTICO") ∧
    (bandOf t.high = (0, 0) → evaluate_severity datos_mb validos_dias t ≠ some "ALTA") ∧
    (bandOf t.medium = (0, 0) → evaluate_severity datos_mb validos_dias t ≠ some "MEDIA") := by
  have heq : evaluate_severity datos_mb validos_dias t = classify_spec datos_mb validos_dias t := rfl
  refine ⟨heq, ?_, ?_, ?_⟩
  · intro h0
    rw [heq]
    unfold classify_spec
    rw [h0, bandMatches_zero]
    simp only [Bool.false_eq_true, if_false]
    split
    · simp
    · split <;> simp
  · intro h0
    rw [heq]
    unfold classify_spec
    rw [h0, bandMatches_zero]
    simp only [Bool.false_eq_true, if_false]
    split
    · simp
    · split <;> simp
  · intro h0
    rw [heq]
    unfold classify_spec
    rw [h0, bandMatches_zero]
    simp only [Bool.false_eq_true, if_false]
    split
    · simp
    · split <;> simp

/-- C1 witness: the theorem applied at a concrete input whose critical band is
disabled (both thresholds 0); the nested hypothesis is discharged by `rfl`. -/
theorem evaluate_severity_priority_and_disabled_witness :
    evaluate_severity (some 50) (some 1)
        ⟨some ⟨some 0, some 0⟩, some ⟨some 3, some 1024⟩, some ⟨some 7, some 2048⟩⟩ =
      classify_spec (some 50) (some 1)
        ⟨some ⟨some 0, some 0⟩, some ⟨some 3, some 1024⟩, some ⟨some 7, some 2048⟩⟩ ∧
    evaluate_severity (some 50) (some 1)
        ⟨some ⟨some 0, some 0⟩, some ⟨some 3, some 1024⟩, some ⟨some 7, some 2048⟩⟩ ≠
      some "CRÍTICO" := by
  have h := evaluate_severity_priority_and_disabled (some 50) (some 1)
    ⟨some ⟨some 0, some 0⟩, some ⟨some 3, some 1024⟩, some ⟨some 7, some 2048⟩⟩
  exact ⟨h.1, h.2.1 rfl⟩

/-! ## Flap suppression (`services/health_monitor.py`) -/

/-- Embedding of `should_alert_offline_confirmed(last_statuses, required)`:
`last_statuses` is most-recent-first; alert only the first time `required`
consecutive offline statuses are observed. -/
def should_alert_offline_confirmed (last_statuses : List String) (required : Nat) : Bool :=
  if last_statuses.length < required then false
  else if ¬ ((last_statuses.take required).all fun s => s == "offline") then false
  else if required + 1 ≤ last_statuses.length then
    !(last_statuses.getD required "" == "offline")
  else true

/-! ## Driver registry (`drivers/__init__.py`) -/

/-- The driver registry keyed by router-type value; the payload stands for the
driver class that would be instantiated. -/
def _DRIVER_REGISTRY : List (String × String) :=
  [("MIKROTIK_ROUTEROS_REST", "MikroTikRouterOSRestDriver"),
   ("TP_LINK_OPENWRT_SSH", "TPLinkOpenWrtSSHDriver")]

/-- Alias table used by `get_driver` to normalize legacy type tags. -/
def driver_aliases : List (String × String) :=
  [("MIKROTIK", "MIKROTIK_ROUTEROS_REST"),
   ("MIKROTIK_REST", "MIKROTIK_ROUTEROS_REST"),
   ("MIKROTIK_ROUTEROS", "MIKROTIK_ROUTEROS_REST"),
   ("MIKROTIK_ROUTEROS_REST", "MIKROTIK_ROUTEROS_REST"),
   ("TPLINK", "TP_LINK_OPENWRT_SSH"),
   ("TP-LINK", "TP_LINK_OPENWRT_SSH"),
   ("OPENWRT", "TP_LINK_OPENWRT_SSH"),
   ("TP_LINK_OPENWRT_SSH", "TP_LINK_OPENWRT_SSH"),
   ("TP-LINK_OPENWRT_SSH", "TP_LINK_OPENWRT_SSH")]

/-- First association-list hit for a key. -/
def lookupAssoc (l : List (String × String)) (k : String) : Option String :=
  (l.find? fun p => p.1 == k).map fun p => p.2

/-- Model of Python `str.strip()`: drop leading and trailing whitespace. -/
def pyStrip (s : String) : String :=
  String.mk (((s.data.dropWhile Char.isWhitespace).reverse.dropWhile Char.isWhitespace).reverse)

/-- Model of Python `str.upper()` on the ASCII letters that appear in
router-type tags. -/
def pyUpper (s : String) : String :=
  String.mk (s.data.map fun c => if 'a' ≤ c ∧ c ≤ 'z' then Char.ofNat (c.toNat - 32) else c)

/-- Embedding of `get_driver(router_type)`: raises `KeyError` (modelled as
`Except.error`) on an empty tag or a tag missing from the registry after
normalization; quotes of the original message are omitted. -/
def get_driver (router_type : String) : Except String String :=
  if router_type == "" then .error "router_type is empty"
  else
    let raw := pyStrip router_type
    let key := pyUpper raw
    let key := (lookupAssoc driver_aliases key).getD key
    match lookupAssoc _DRIVER_REGISTRY key with
    | some cls => .ok cls
    | none =>
        .error ("Unknown router_type " ++ router_type ++ ". Normalized " ++ key ++
          ". Available: MIKROTIK_ROUTEROS_REST, TP_LINK_OPENWRT_SSH")

/-! ## Health monitor (`services/health_monitor.py`) -/

/-- Host row: the fields of `models.Host` read or written by the monitor.
`last_status` is nullable; the pre-first-check default is `none`. -/
structure HostRec where
  id : Int
  name : String
  ip : String
  router_type : String
  enabled : Bool
  notify_enabled : Bool
  last_status : Option String
  last_checked_at : Option Nat
  last_latency_ms : Option Nat
deriving DecidableEq

/-- Row of `models.HostHealth`; times in abstract ticks. -/
structure HealthRec where
  host_id : Int
  status : String
  latency_ms : Option Nat
  error_message : Option String
  checked_at : Nat
deriving DecidableEq

/-- Result of one `check_host` call: the mutated host cache, the appended
history, the health row, and the alert keys handed to `send_alert`. -/
structure CheckResult where
  host : HostRec
  history : List HealthRec
  health : HealthRec
  alerts : List String
deriving DecidableEq

/-- Embedding of `last_n_statuses(session, host_id, n)`: statuses most recent
first. History lists are kept oldest-first with strictly increasing
`checked_at`, so `ORDER BY checked_at DESC` is list reversal. -/
def last_n_statuses (history : List HealthRec) (n : Nat) : List String :=
  ((history.reverse).map fun h => h.status).take n

/-- Embedding of `check_host(session, host)`. The probe argument stands for
the awaited `driver.validate(host)`: `.ok latency` on success, `.error msg`
when it raises. `get_driver` runs before the `try` block, so its failure
propagates (`Except.error`). The returned alert keys are the `send_alert`
invocations made by the function. -/
def check_host (host : HostRec) (history : List HealthRec)
    (probe : Except String Nat) (now : Nat) : Except String CheckResult :=
  match get_driver host.router_type with
  | .error e => .error e
  | .ok _ =>
    let previous_status := host.last_status
    let res : String × Option Nat × Option String :=
      match probe with
      | .ok lat => ("online", some lat, none)
      | .error exc => ("offline", none, some exc)
    let status := res.1
    let latency_ms := res.2.1
    let error_message := res.2.2
    let health : HealthRec := ⟨host.id, status, latency_ms, error_message, now⟩
    let history2 := history ++ [health]
    let host2 := { host with
      last_status := some status
      last_checked_at := some now
      last_latency_ms := latency_ms }
    let alerts : List String :=
      if host.notify_enabled then
        if status == "online" then
          match previous_status with
          | some p => if p ≠ "" ∧ p ≠ "online" then ["host_online"] else []
          | none => []
        else
          if should_alert_offline_confirmed (last_n_statuses history2 6) 5 then
            ["host_offline_confirmed"]
          else []
      else []
    .ok ⟨host2, history2, health, alerts⟩

/-- One host of a `check_all_hosts` batch with its own history and probe
outcome. -/
structure BatchItem where
  host : HostRec
  history : List HealthRec
  probe : Except String Nat

/-- Embedding of `check_all_hosts(session)`: hosts are checked sequentially;
an exception escaping `check_host` propagates and aborts the remaining
iterations. -/
def check_all_hosts (items : List BatchItem) (now : Nat) : Except String (List HealthRec) :=
  match items with
  | [] => .ok []
  | it :: rest =>
    match check_host it.host it.history it.probe now with
    | .error e => .error e
    | .ok r =>
      match check_all_hosts rest now with
      | .error e => .error e
      | .ok l => .ok (r.health :: l)

/-- Iterate `check_host` for one host over a list of probe outcomes
(oldest first), threading the host cache and history, collecting the alert
keys dispatched at each check. -/
def runChecks (host : HostRec) (history : List HealthRec)
    (probes : List (Except String Nat)) (now : Nat) :
    Except String (HostRec × List HealthRec × List (List String)) :=
  match probes with
  | [] => .ok (host, history, [])
  | p :: rest =>
    match check_host host history p now with
    | .error e => .error e
    | .ok r =>
      match runChecks r.host r.history rest (now + 1) with
      | .error e => .error e
      | .ok pr => .ok (pr.1, pr.2.1, r.alerts :: pr.2.2)

/-- A concrete monitored host: valid driver tag, notifications on, never
checked before. -/
def host0 : HostRec :=
  ⟨1, "r1", "10.0.0.1", "MIKROTIK_ROUTEROS_REST", true, true, none, none, none⟩

/-- C2: the offline-confirmed condition holds exactly when the 5 most recent
statuses are all offline and the 6th-most-recent, if present, is not offline;
and on the trace online, then five offlines, exactly one
`host_offline_confirmed` alert is dispatched, at the 5th consecutive offline
check and not before or after. -/
theorem offline_confirmed_characterization_and_trace :
    (∀ ls : List String, should_alert_offline_confirmed ls 5 = true ↔
      (5 ≤ ls.length ∧ (∀ s ∈ ls.take 5, s = "offline") ∧
        (6 ≤ ls.length → ls.getD 5 "" ≠ "offline"))) ∧
    (runChecks host0 []
        [.ok 10, .error "timeout", .error "timeout", .error "timeout",
         .error "timeout", .error "timeout"] 0).map (fun r => r.2.2) =
      .ok [[], [], [], [], [], ["host_offline_confirmed"]] := by
  constructor
  · intro ls
    unfold should_alert_offline_confirmed
    split_ifs with h1 h2 h3
    · simp only [Bool.false_eq_true, false_iff]
      intro h
      omega
    · have hall := h2
      simp only [List.all_eq_true, beq_iff_eq] at hall
      simp only [Bool.not_eq_true', beq_eq_false_iff_ne, ne_eq]
      constructor
      · intro hne
        exact ⟨by omega, fun s hs => hall s hs, fun _ => hne⟩
      · intro h
        exact h.2.2 (by omega)
    · have hall := h2
      simp only [List.all_eq_true, beq_iff_eq] at hall
      simp only [true_iff]
      exact ⟨by omega, fun s hs => hall s hs, fun hc => absurd hc (by omega)⟩
    · simp only [Bool.false_eq_true, false_iff]
      intro h
      apply h2
      simp only [List.all_eq_true, beq_iff_eq]
      exact fun s hs => h.2.1 s hs
  · rfl

/-- C2 witness: the characterization applied to the concrete most-recent-first
history [offline ×5, online], with hypotheses discharged by `decide`. -/
theorem offline_confirmed_characterization_and_trace_witness :
    should_alert_offline_confirmed
      ["offline", "offline", "offline", "offline", "offline", "online"] 5 = true := by
  exact (offline_confirmed_characterization_and_trace.1
    ["offline", "offline", "offline", "offline", "offline", "online"]).mpr
    ⟨by decide, by decide, by decide⟩

/-! ## Alert dispatcher (`services/telegram.py`) -/

/-- Telegram configuration: whether both token and chat id are set, and the
cooldown window `telegram_cooldown_seconds` (default 900). -/
structure TgConfig where
  configured : Bool
  cooldown : Nat
deriving DecidableEq

/-- Outcome of the HTTP post if one is attempted: success, or a raised
transport error (`raise_for_status` / network failure). -/
inductive Transport
  | ok
  | fail
deriving DecidableEq

/-- Observable outcome of one `send_alert` call. -/
inductive SendResult
  | suppressed
  | skippedUnconfigured
  | sent
  | failed
deriving DecidableEq

/-- Cooldown key `(host_id, alert_key)` of `_LAST_ALERT_TIMES`. -/
abbrev AlertKey := Int × String

/-- The `_LAST_ALERT_TIMES` dict as an association list; an update prepends
and shadows the previous entry. -/
abbrev AlertTimes := List (AlertKey × Nat)

/-- Dict lookup on the cooldown map. -/
def lookupTime (m : AlertTimes) (k : AlertKey) : Option Nat :=
  (m.find? fun p => decide (p.1 = k)).map fun p => p.2

/-- The cooldown test of `send_alert`: `last_sent and now - last_sent <
cooldown` (a datetime is always truthy, so this is a lookup hit plus the
window test). -/
def inCooldown (cfg : TgConfig) (times : AlertTimes) (key : AlertKey) (now : Nat) : Bool :=
  match lookupTime times key with
  | some last_sent => decide (now - last_sent < cfg.cooldown)
  | none => false

/-- Embedding of `_post_message(text)`: returns without posting when the
transport is not configured (`.ok false`), posts on success (`.ok true`),
raises on transport failure (`.error`). -/
def _post_message (cfg : TgConfig) (tr : Transport) : Except String Bool :=
  if ¬ cfg.configured then .ok false
  else match tr with
    | .ok => .ok true
    | .fail => .error "transport failure"

/-- Embedding of `send_alert(host_id, alert_key, message)`: suppress while the
cooldown window is open; otherwise try `_post_message`, record `now` in the
cooldown map when the try block completes, and swallow a raised transport
error leaving the map untouched. Total by construction: no exception escapes
to the caller. -/
def send_alert (cfg : TgConfig) (times : AlertTimes) (now : Nat)
    (host_id : Int) (alert_key : String) (tr : Transport) : AlertTimes × SendResult :=
  let key : AlertKey := (host_id, alert_key)
  if inCooldown cfg times key now then (times, .suppressed)
  else
    match _post_message cfg tr with
    | .ok posted => ((key, now) :: times, if posted then .sent else .skippedUnconfigured)
    | .error _ => (times, .failed)

/-- Whether the Notifier (HTTP transport) was invoked by the call. -/
def notifierCalled : SendResult → Bool
  | .sent => true
  | .failed => true
  | _ => false

/-- Run a sequence of `send_alert` calls for one key, threading the cooldown
map; events are `(now, transport-outcome)` pairs in time order. -/
def sendSeq (cfg : TgConfig) (times : AlertTimes) (host_id : Int) (alert_key : String) :
    List (Nat × Transport) → AlertTimes × List SendResult
  | [] => (times, [])
  | (now, tr) :: rest =>
    let r := send_alert cfg times now host_id alert_key tr
    let rest' := sendSeq cfg r.1 host_id alert_key rest
    (rest'.1, r.2 :: rest'.2)

/-- Number of Notifier invocations in a result sequence. -/
def countNotifierCalls (rs : List SendResult) : Nat :=
  (rs.filter notifierCalled).length

/-- C3: a send inside the cooldown window of a recorded success performs no
Notifier call and leaves the map unchanged; after the window a Notifier call
is attempted again; two same-key calls inside one window yield exactly one
Notifier call and a third call after the window yields a second; a send that
results in `sent` is at least the window away from the recorded last send and
re-records `now`. -/
theorem send_alert_cooldown_policy :
    (∀ (cfg : TgConfig) (times : AlertTimes) (now : Nat) (host_id : Int)
        (alert_key : String) (tr : Transport) (t : Nat),
      lookupTime times (host_id, alert_key) = some t → now - t < cfg.cooldown →
      send_alert cfg times now host_id alert_key tr = (times, .suppressed)) ∧
    (∀ (cfg : TgConfig) (times : AlertTimes) (now : Nat) (host_id : Int)
        (alert_key : String) (tr : Transport) (t : Nat),
      cfg.configured = true → lookupTime times (host_id, alert_key) = some t →
      cfg.cooldown ≤ now - t →
      notifierCalled (send_alert cfg times now host_id alert_key tr).2 = true) ∧
    (∀ (cfg : TgConfig) (host_id : Int) (alert_key : String) (now1 now2 : Nat)
        (tr2 : Transport),
      cfg.configured = true → now2 - now1 < cfg.cooldown →
      countNotifierCalls (sendSeq cfg [] host_id alert_key [(now1, .ok), (now2, tr2)]).2 = 1) ∧
    (∀ (cfg : TgConfig) (host_id : Int) (alert_key : String) (now1 now2 now3 : Nat)
        (tr2 : Transport),
      cfg.configured = true → now2 - now1 < cfg.cooldown → cfg.cooldown ≤ now3 - now1 →
      countNotifierCalls
        (sendSeq cfg [] host_id alert_key [(now1, .ok), (now2, tr2), (now3, .ok)]).2 = 2) ∧
    (∀ (cfg : TgConfig) (times : AlertTimes) (now : Nat) (host_id : Int)
        (alert_key : String) (tr : Transport) (t : Nat),
      (send_alert cfg times now host_id alert_key tr).2 = .sent →
      lookupTime times (host_id, alert_key) = some t →
      cfg.cooldown ≤ now - t ∧
      lookupTime (send_alert cfg times now host_id alert_key tr).1
        (host_id, alert_key) = some now) := by
  have hicT : ∀ (cfg : TgConfig) (times : AlertTimes) (now : Nat) (k : AlertKey) (t : Nat),
      lookupTime times k = some t → now - t < cfg.cooldown →
      inCooldown cfg times k now = true := by
    intro cfg times now k t h1 h2
    simp [inCooldown, h1, h2]
  have hicF : ∀ (cfg : TgConfig) (times : AlertTimes) (now : Nat) (k : AlertKey) (t : Nat),
      lookupTime times k = some t → ¬ (now - t < cfg.cooldown) →
      inCooldown cfg times k now = false := by
    intro cfg times now k t h1 h2
    simp [inCooldown, h1, h2]
  have hicN : ∀ (cfg : TgConfig) (times : AlertTimes) (now : Nat) (k : AlertKey),
      lookupTime times k = none → inCooldown cfg times k now = false := by
    intro cfg times now k h1
    simp [inCooldown, h1]
  have hlkSelf : ∀ (k : AlertKey) (t : Nat) (rest : AlertTimes),
      lookupTime ((k, t) :: rest) k = some t := by
    intro k t rest
    simp [lookupTime, List.find?]
  have hsup : ∀ (cfg : TgConfig) (times : AlertTimes) (now : Nat) (host_id : Int)
      (alert_key : String) (tr : Transport) (t : Nat),
      lookupTime times (host_id, alert_key) = some t → now - t < cfg.cooldown →
      send_alert cfg times now host_id alert_key tr = (times, .suppressed) := by
    intro cfg times now host_id alert_key tr t hlk hlt
    simp [send_alert, hicT cfg times now (host_id, alert_key) t hlk hlt]
  refine ⟨hsup, ?_, ?_, ?_, ?_⟩
  · intro cfg times now host_id alert_key tr t hconf hlk hge
    have hnot : ¬ (now - t < cfg.cooldown) := by omega
    cases tr <;>
      simp [send_alert, _post_message, hicF cfg times now (host_id, alert_key) t hlk hnot,
        hconf, notifierCalled]
  · intro cfg host_id alert_key now1 now2 tr2 hconf hlt
    simp only [sendSeq]
    have h1 : send_alert cfg [] now1 host_id alert_key .ok =
        ([((host_id, alert_key), now1)], .sent) := by
      simp [send_alert, _post_message, hconf,
        hicN cfg [] now1 (host_id, alert_key) (by simp [lookupTime])]
    rw [h1]
    have h2 := hsup cfg [((host_id, alert_key), now1)] now2 host_id alert_key tr2 now1
      (hlkSelf (host_id, alert_key) now1 []) hlt
    rw [h2]
    simp [sendSeq, countNotifierCalls, notifierCalled]
  · intro cfg host_id alert_key now1 now2 now3 tr2 hconf hlt hge
    simp only [sendSeq]
    have h1 : send_alert cfg [] now1 host_id alert_key .ok =
        ([((host_id, alert_key), now1)], .sent) := by
      simp [send_alert, _post_message, hconf,
        hicN cfg [] now1 (host_id, alert_key) (by simp [lookupTime])]
    rw [h1]
    have h2 := hsup cfg [((host_id, alert_key), now1)] now2 host_id alert_key tr2 now1
      (hlkSelf (host_id, alert_key) now1 []) hlt
    rw [h2]
    have hnot : ¬ (now3 - now1 < cfg.cooldown) := by omega
    have h3 : send_alert cfg [((host_id, alert_key), now1)] now3 host_id alert_key .ok =
        (((host_id, alert_key), now3) :: [((host_id, alert_key), now1)], .sent) := by
      simp [send_alert, _post_message, hconf,
        hicF cfg [((host_id, alert_key), now1)] now3 (host_id, alert_key) now1
          (hlkSelf (host_id, alert_key) now1 []) hnot]
    rw [h3]
    simp [sendSeq, countNotifierCalls, notifierCalled]
  · intro cfg times now host_id alert_key tr t hsent hlk
    by_cases hlt : now - t < cfg.cooldown
    · rw [hsup cfg times now host_id alert_key tr t hlk hlt] at hsent
      cases hsent
    · refine ⟨by omega, ?_⟩
      have hic := hicF cfg times now (host_id, alert_key) t hlk hlt
      revert hsent
      cases htr : tr <;>
        cases hc : cfg.configured <;>
          simp [send_alert, _post_message, hic, hc, hlkSelf]

/-- C3 witness: two calls 100 ticks apart inside a 900-tick window produce
exactly one Notifier call. -/
theorem send_alert_cooldown_policy_witness :
    countNotifierCalls (sendSeq ⟨true, 900⟩ [] 1 "no_response" [(0, .ok), (100, .ok)]).2 = 1 := by
  exact send_alert_cooldown_policy.2.2.1 ⟨true, 900⟩ 1 "no_response" 0 100 .ok rfl (by decide)

/-- C4: a Notifier transport failure is swallowed — `send_alert` returns
normally with the cooldown entry for the key untouched — and because the
cooldown never advanced, a retry inside the nominal window still attempts a
Notifier call. -/
theorem send_alert_failure_swallowed_no_cooldown :
    (∀ (cfg : TgConfig) (times : AlertTimes) (now : Nat) (host_id : Int)
        (alert_key : String),
      cfg.configured = true →
      (∀ t, lookupTime times (host_id, alert_key) = some t → cfg.cooldown ≤ now - t) →
      send_alert cfg times now host_id alert_key .fail = (times, .failed) ∧
      notifierCalled .failed = true) ∧
    (∀ (cfg : TgConfig) (host_id : Int) (alert_key : String) (now1 now2 : Nat)
        (tr2 : Transport),
      cfg.configured = true → now2 - now1 < cfg.cooldown →
      countNotifierCalls
        (sendSeq cfg [] host_id alert_key [(now1, .fail), (now2, tr2)]).2 = 2) := by
  have hicN : ∀ (cfg : TgConfig) (times : AlertTimes) (now : Nat) (k : AlertKey),
      lookupTime times k = none → inCooldown cfg times k now = false := by
    intro cfg times now k h1
    simp [inCooldown, h1]
  have hfail : ∀ (cfg : TgConfig) (times : AlertTimes) (now : Nat) (host_id : Int)
      (alert_key : String),
      cfg.configured = true →
      (∀ t, lookupTime times (host_id, alert_key) = some t → cfg.cooldown ≤ now - t) →
      send_alert cfg times now host_id alert_key .fail = (times, .failed) := by
    intro cfg times now host_id alert_key hconf hbound
    have hic : inCooldown cfg times (host_id, alert_key) now = false := by
      cases hlk : lookupTime times (host_id, alert_key) with
      | none => exact hicN cfg times now (host_id, alert_key) hlk
      | some t =>
        have := hbound t hlk
        simp [inCooldown, hlk]
        omega
    simp [send_alert, _post_message, hic, hconf]
  constructor
  · intro cfg times now host_id alert_key hconf hbound
    exact ⟨hfail cfg times now host_id alert_key hconf hbound, rfl⟩
  · intro cfg host_id alert_key now1 now2 tr2 hconf hlt
    simp only [sendSeq]
    have h1 := hfail cfg [] now1 host_id alert_key hconf (by simp [lookupTime])
    rw [h1]
    have h2 : inCooldown cfg [] (host_id, alert_key) now2 = false :=
      hicN cfg [] now2 (host_id, alert_key) (by simp [lookupTime])
    cases tr2 <;>
      cases hc : cfg.configured <;>
        simp_all [sendSeq, send_alert, _post_message, countNotifierCalls, notifierCalled, h2]

/-- C4 witness: a failed first call followed by a retry 10 ticks later (well
inside the 900-tick window) attempts the Notifier both times. -/
theorem send_alert_failure_swallowed_no_cooldown_witness :
    countNotifierCalls
      (sendSeq ⟨true, 900⟩ [] 7 "host_online" [(0, .fail), (10, .fail)]).2 = 2 := by
  exact send_alert_failure_swallowed_no_cooldown.2 ⟨true, 900⟩ 7 "host_online" 0 10 .fail
    rfl (by decide)

/-- C10: with the transport unconfigured, an eligible `send_alert` sends
nothing but still records `now` in the cooldown map, so a second same-key
call inside the window is suppressed even though nothing was ever
delivered. -/
theorem send_alert_unconfigured_advances_cooldown :
    (∀ (cfg : TgConfig) (times : AlertTimes) (now : Nat) (host_id : Int)
        (alert_key : String) (tr : Transport),
      cfg.configured = false →
      (∀ t, lookupTime times (host_id, alert_key) = some t → cfg.cooldown ≤ now - t) →
      send_alert cfg times now host_id alert_key tr =
        (((host_id, alert_key), now) :: times, .skippedUnconfigured) ∧
      notifierCalled .skippedUnconfigured = false) ∧
    (∀ (cfg : TgConfig) (host_id : Int) (alert_key : String) (now1 now2 : Nat)
        (tr1 tr2 : Transport),
      cfg.configured = false → now2 - now1 < cfg.cooldown →
      (sendSeq cfg [] host_id alert_key [(now1, tr1), (now2, tr2)]).2 =
        [.skippedUnconfigured, .suppressed] ∧
      countNotifierCalls
        (sendSeq cfg [] host_id alert_key [(now1, tr1), (now2, tr2)]).2 = 0) := by
  have hskip : ∀ (cfg : TgConfig) (times : AlertTimes) (now : Nat) (host_id : Int)
      (alert_key : String) (tr : Transport),
      cfg.configured = false →
      (∀ t, lookupTime times (host_id, alert_key) = some t → cfg.cooldown ≤ now - t) →
      send_alert cfg times now host_id alert_key tr =
        (((host_id, alert_key), now) :: times, .skippedUnconfigured) := by
    intro cfg times now host_id alert_key tr hconf hbound
    have hic : inCooldown cfg times (host_id, alert_key) now = false := by
      cases hlk : lookupTime times (host_id, alert_key) with
      | none => simp [inCooldown, hlk]
      | some t =>
        have := hbound t hlk
        simp [inCooldown, hlk]
        omega
    simp [send_alert, _post_message, hic, hconf]
  constructor
  · intro cfg times now host_id alert_key tr hconf hbound
    exact ⟨hskip cfg times now host_id alert_key tr hconf hbound, rfl⟩
  · intro cfg host_id alert_key now1 now2 tr1 tr2 hconf hlt
    simp only [sendSeq]
    have h1 := hskip cfg [] now1 host_id alert_key tr1 hconf (by simp [lookupTime])
    rw [h1]
    have hlk2 : lookupTime [((host_id, alert_key), now1)] (host_id, alert_key) = some now1 := by
      simp [lookupTime, List.find?]
    have hic : inCooldown cfg [((host_id, alert_key), now1)] (host_id, alert_key) now2 = true := by
      simp [inCooldown, hlk2, hlt]
    have h2 : send_alert cfg [((host_id, alert_key), now1)] now2 host_id alert_key tr2 =
        ([((host_id, alert_key), now1)], .suppressed) := by
      simp [send_alert, hic]
    rw [h2]
    simp [sendSeq, countNotifierCalls, notifierCalled]

/-- C10 witness: unconfigured transport, two calls 5 ticks apart with a
900-tick window: first skipped but recorded, second suppressed, zero
Notifier calls. -/
theorem send_alert_unconfigured_advances_cooldown_witness :
    (sendSeq ⟨false, 900⟩ [] 2 "daily_summary" [(0, .ok), (5, .ok)]).2 =
      [.skippedUnconfigured, .suppressed] ∧
    countNotifierCalls (sendSeq ⟨false, 900⟩ [] 2 "daily_summary" [(0, .ok), (5, .ok)]).2 = 0 := by
  exact send_alert_unconfigured_advances_cooldown.2 ⟨false, 900⟩ 2 "daily_summary" 0 5 .ok .ok
    rfl (by decide)

/-! ## Action runner (`services/action_runner.py`) and the scheduler retry
loop (`services/scheduler.py`) -/

/-- One MikroTik log entry as consumed by the USSD helpers: the `time` and
`message` dict fields (missing fields default to the empty string). -/
structure UssdItem where
  time : String
  message : String
deriving DecidableEq

/-- Fields extracted by `parse_ussd_fields_from_message`. -/
structure UssdFields where
  ok_parse : Bool
  datos_mb : Option ℚ
  validos_dias : Option Int
  saldo : Option ℚ
deriving DecidableEq

/-- Result dict of `driver.execute_action(host, action_key, **params)`:
`{"raw": ..., "parsed": ...}`; `raw` is modelled as an optional structured
log batch (`_ensure_mikrotik_logs` already applied), `parsed` as opaque
text. -/
structure DriverResult where
  raw : Option (List UssdItem)
  parsed : Option String
deriving DecidableEq

/-- Model of Python `str.startswith`. -/
def pyStartsWith (s pre : String) : Bool :=
  pre.data.isPrefixOf s.data

/-- Model of Python `str.lower()` on ASCII letters. -/
def pyLower (s : String) : String :=
  String.mk (s.data.map fun c => if 'A' ≤ c ∧ c ≤ 'Z' then Char.ofNat (c.toNat + 32) else c)

/-- Substring occurrence test over character lists. -/
def containsFrom (sub : List Char) : List Char → Bool
  | [] => sub.isEmpty
  | c :: rest => sub.isPrefixOf (c :: rest) || containsFrom sub rest

/-- Model of Python `sub in s`. -/
def pyContains (s sub : String) : Bool :=
  containsFrom sub.data s.data

/-- Embedding of `extract_latest_ussd(raw)`: the USSD-prefixed entry with the
greatest parsed timestamp (unparseable times fall back to the minimum, ties
keep the earlier entry). `parseTime` stands for `_parse_mikrotik_time`. -/
def extract_latest_ussd (parseTime : String → Option Nat) (logs : List UssdItem) :
    Option UssdItem :=
  (logs.foldl (fun acc item =>
    if ¬ (pyStartsWith (pyStrip item.message) "USSD:") then acc
    else
      let t := (parseTime item.time).getD 0
      match acc with
      | none => some (item, t)
      | some pr => if t > pr.2 then some (item, t) else acc) none).map fun pr => pr.1

/-- Embedding of `has_saldo_insuficiente(raw)`: some USSD entry mentions
"saldo insuficiente" (case-insensitively). -/
def has_saldo_insuficiente (logs : List UssdItem) : Bool :=
  logs.any fun item =>
    let msg := pyStrip item.message
    pyStartsWith msg "USSD:" && pyContains (pyLower msg) "saldo insuficiente"

/-- External context of one `execute_and_record` call: the pure string
helpers whose internals are out of scope here (`_parse_mikrotik_time` and the
regex-based `parse_ussd_fields_from_message`), the Store-provided severity
thresholds (`get_telegram_severity`), and the current wall-clock ISO string
used for fallback timestamps. -/
structure ExecEnv where
  parseTime : String → Option Nat
  parseFields : String → UssdFields
  thresholds : SeverityThresholds
  nowIso : String

/-- The `response_parsed` value: the dict assembled in the `VER_LOGS_USSD`
branch, or the driver's `parsed` passthrough for other actions. -/
inductive ParsedResp
  | ussd (latest : Option UssdItem) (fields : Option UssdFields) (time : Option String)
  | generic (parsed : Option String)
deriving DecidableEq

/-- Row of `models.ActionRun` as written by `execute_and_record`; times in
milliseconds since an arbitrary origin. -/
structure ActionRunRec where
  host_id : Int
  router_type : String
  action_key : String
  started_at : Nat
  finished_at : Nat
  duration_ms : Nat
  status : String
  stdout : Option (List UssdItem)
  stderr : Option String
  response_parsed : Option ParsedResp
  response_raw : Option (List UssdItem)
  error_message : Option String
deriving DecidableEq

/-- Locals of the `try`/`except` block of `execute_and_record`. -/
structure TryOut where
  status : String
  stdout : Option (List UssdItem)
  stderr : Option String
  response_parsed : Option ParsedResp
  error_message : Option String
  ussd_raw_for_alerts : Option (List UssdItem)
deriving DecidableEq

/-- The `try`/`except` block of `execute_and_record`: a raised driver error
is converted to FAIL with the message captured; `VER_LOGS_USSD` results are
reduced to the latest-USSD dict and the raw payload kept in memory only for
alerts. -/
def tryBlock (env : ExecEnv) (action_key : String)
    (driverCall : Except String DriverResult) : TryOut :=
  match driverCall with
  | .ok result =>
    let response_raw := result.raw
    if action_key = "VER_LOGS_USSD" then
      let latest := extract_latest_ussd env.parseTime (response_raw.getD [])
      let rp : ParsedResp :=
        match latest with
        | some l =>
          if l.message ≠ "" then
            .ussd latest (some (env.parseFields l.message))
              (some (if l.time ≠ "" then l.time else env.nowIso))
          else .ussd latest none none
        | none => .ussd none none none
      { status := "SUCCESS", stdout := none, stderr := none,
        response_parsed := some rp, error_message := none,
        ussd_raw_for_alerts := response_raw }
    else
      { status := "SUCCESS", stdout := response_raw, stderr := none,
        response_parsed := (result.parsed).map fun p => .generic (some p),
        error_message := none, ussd_raw_for_alerts := none }
  | .error exc =>
    { status := "FAIL", stdout := none, stderr := some exc,
      response_parsed := none, error_message := some exc,
      ussd_raw_for_alerts := none }

/-- Alert key `f"sev_{sev.lower()}"` for the three tiers the classifier can
return. -/
def sev_alert_key (sev : String) : String :=
  if sev = "CRÍTICO" then "sev_crítico"
  else if sev = "ALTA" then "sev_alta"
  else if sev = "MEDIA" then "sev_media"
  else "sev_" ++ sev

/-- The success-path alert section of `execute_and_record` (guarded by
SUCCESS + `VER_LOGS_USSD` + telegram enabled): latest-USSD message, low
balance, and severity-tier alerts, in source order. -/
def successUssdAlerts (env : ExecEnv) (tb : TryOut) : List String :=
  let latest : Option UssdItem :=
    match tb.response_parsed with
    | some (.ussd l _ _) => l
    | _ => none
  let a1 : List String :=
    match latest with
    | some l => if l.message ≠ "" then ["ussd_latest"] else []
    | none => []
  let a2 : List String :=
    match tb.ussd_raw_for_alerts with
    | some raw => if has_saldo_insuficiente raw then ["low_balance"] else []
    | none => []
  let a3 : List String :=
    match tb.response_parsed with
    | some (.ussd _ (some f) _) =>
      if f.ok_parse then
        match evaluate_severity f.datos_mb f.validos_dias env.thresholds with
        | some sev => [sev_alert_key sev]
        | none => []
      else []
    | _ => []
  a1 ++ a2 ++ a3

/-- Result of one `execute_and_record` call: the returned run, the ActionRun
rows persisted through the Store (`session.add` + `commit`), and the alert
keys handed to `send_alert`. -/
structure ExecOutcome where
  run : ActionRunRec
  persisted : List ActionRunRec
  alerts : List String
deriving DecidableEq

/-- Embedding of `execute_and_record(session, host, action_key, attempt=...,
max_attempts=..., telegram_enabled=..., **params)`. `get_driver` runs before
the `try` block, so an unresolvable router type propagates as
`Except.error`; otherwise exactly one ActionRun is persisted and the alert
sections run as in the source. `start`/`finish` are the two `utcnow()`
readings in milliseconds. -/
def execute_and_record (env : ExecEnv) (host : HostRec) (action_key : String)
    (attempt max_attempts : Nat) (telegram_enabled : Bool)
    (driverCall : Except String DriverResult) (start finish : Nat) :
    Except String ExecOutcome :=
  match get_driver host.router_type with
  | .error e => .error e
  | .ok _ =>
    let tb := tryBlock env action_key driverCall
    let run : ActionRunRec :=
      { host_id := host.id, router_type := host.router_type, action_key := action_key,
        started_at := start, finished_at := finish, duration_ms := finish - start,
        status := tb.status, stdout := tb.stdout, stderr := tb.stderr,
        response_parsed := tb.response_parsed, response_raw := none,
        error_message := tb.error_message }
    let successAlerts : List String :=
      if telegram_enabled ∧ tb.status = "SUCCESS" ∧ action_key = "VER_LOGS_USSD" then
        successUssdAlerts env tb
      else []
    let failAlerts : List String :=
      if telegram_enabled ∧ tb.status = "FAIL" ∧ max_attempts ≤ attempt then
        ["no_response"]
      else []
    .ok { run := run, persisted := [run], alerts := successAlerts ++ failAlerts }

/-- Row of `models.AutomationRule` as read by the scheduler. -/
structure RuleRec where
  id : Int
  host_id : Int
  action_key : String
  enabled : Bool
  schedule : String
  retry_enabled : Bool
  retry_delay_minutes : Nat
  max_attempts : Nat
  telegram_enabled : Bool
deriving DecidableEq

/-- Outcome of one `SchedulerService._run_rule` invocation: all ActionRun
rows persisted across the retry sequence, the per-attempt alert keys, and
the flat list of all alert keys dispatched (attempts first, then the final
summary alert). -/
structure RuleRunResult where
  persisted : List ActionRunRec
  attemptAlerts : List (List String)
  alerts : List String
deriving DecidableEq

/-- The `for attempt in range(1, attempts + 1)` loop of `_run_rule`: run
`execute_and_record` per attempt, stop at the first SUCCESS; `outcomes n`
is the driver outcome of attempt `n` and `times n` its start/finish pair.
The first argument is the number of remaining iterations. -/
def runAttemptsFrom (env : ExecEnv) (host : HostRec) (action_key : String)
    (telegram_enabled : Bool) (attempts : Nat)
    (outcomes : Nat → Except String DriverResult) (times : Nat → Nat × Nat) :
    Nat → Nat → Except String (List ExecOutcome)
  | 0, _ => .ok []
  | remaining + 1, attempt =>
    match execute_and_record env host action_key attempt attempts telegram_enabled
        (outcomes attempt) (times attempt).1 (times attempt).2 with
    | .error e => .error e
    | .ok out =>
      if out.run.status = "SUCCESS" then .ok [out]
      else
        match runAttemptsFrom env host action_key telegram_enabled attempts outcomes times
            remaining (attempt + 1) with
        | .error e => .error e
        | .ok rest => .ok (out :: rest)

/-- Embedding of `SchedulerService._run_rule(rule_id)`: skip when the rule or
host is missing or disabled; otherwise run up to
`attempts = max_attempts if retry_enabled else 1` attempts, then send the
final success/failure summary alert when `telegram_enabled` and at least one
attempt ran. -/
def run_rule (env : ExecEnv) (rule : RuleRec) (host : Option HostRec)
    (outcomes : Nat → Except String DriverResult) (times : Nat → Nat × Nat) :
    Except String RuleRunResult :=
  if ¬ rule.enabled then .ok ⟨[], [], []⟩
  else
    match host with
    | none => .ok ⟨[], [], []⟩
    | some h =>
      if ¬ h.enabled then .ok ⟨[], [], []⟩
      else
        let attempts := if rule.retry_enabled then rule.max_attempts else 1
        match runAttemptsFrom env h rule.action_key rule.telegram_enabled attempts
            outcomes times attempts 1 with
        | .error e => .error e
        | .ok outs =>
          let persisted := (outs.map fun o => o.persisted).flatten
          let attemptAlerts := outs.map fun o => o.alerts
          let finalAlert : List String :=
            if rule.telegram_enabled then
              match outs.getLast? with
              | some last =>
                if last.run.status = "SUCCESS" then ["auto_" ++ toString rule.id ++ "_success"]
                else ["auto_" ++ toString rule.id ++ "_fail"]
              | none => []
            else []
          .ok ⟨persisted, attemptAlerts, attemptAlerts.flatten ++ finalAlert⟩

/-- A concrete execution environment with trivial string helpers and empty
thresholds. -/
def env0 : ExecEnv :=
  ⟨fun _ => none, fun _ => ⟨false, none, none, none⟩, ⟨none, none, none⟩, "2026-01-01T00:00:00"⟩

/-- Rule with retries enabled and `max_attempts = 3`. -/
def rule3 : RuleRec := ⟨1, 1, "VER_LOGS_USSD", true, "*/5 * * * *", true, 10, 3, true⟩

/-- Rule with retries enabled and `max_attempts = 2`. -/
def rule2 : RuleRec := ⟨1, 1, "VER_LOGS_USSD", true, "*/5 * * * *", true, 10, 2, true⟩

/-- Driver outcomes: attempts 1 and 2 raise, attempt 3 succeeds. -/
def outcomesFFS : Nat → Except String DriverResult :=
  fun a => if a = 1 then .error "timeout-1"
    else if a = 2 then .error "timeout-2"
    else .ok ⟨none, none⟩

/-- Driver outcomes: every attempt raises. -/
def outcomesFF : Nat → Except String DriverResult := fun a => .error ("down-" ++ toString a)

/-- Start/finish instants of attempt `n`. -/
def times0 : Nat → Nat × Nat := fun a => (1000 * a, 1000 * a + 50)

/-- Projection used to state persistence counts over a `_run_rule` result. -/
def persistedCountOf (r : Except String RuleRunResult) : Option Nat :=
  match r with
  | .ok x => some x.persisted.length
  | .error _ => none

/-- C5 counterexample: in the automation path with `maxAttempts = 3`, the
action failing on attempts 1 and 2 and succeeding on attempt 3, the job
persists three ActionRun rows (one per attempt), not exactly one as
claimed. -/
theorem run_rule_three_attempts_persists_three_counterexample :
    persistedCountOf (run_rule env0 rule3 (some host0) outcomesFFS times0) = some 3 ∧
    persistedCountOf (run_rule env0 rule3 (some host0) outcomesFFS times0) ≠ some 1 := by
  have h : persistedCountOf (run_rule env0 rule3 (some host0) outcomesFFS times0) = some 3 := rfl
  refine ⟨h, ?_⟩
  rw [h]
  decide

/-- C5 amended: one ActionRun is persisted per executed attempt; in the
`maxAttempts = 3`, fail-fail-succeed scenario exactly three runs are
persisted with statuses FAIL, FAIL, SUCCESS — the last reflecting the 3rd
attempt's success — and zero `no_response` alerts are dispatched. -/
theorem run_rule_persists_one_run_per_attempt :
    (run_rule env0 rule3 (some host0) outcomesFFS times0).map
        (fun r => (r.persisted.length, r.persisted.map fun a : ActionRunRec => a.status,
          r.alerts.count "no_response")) =
      .ok (3, ["FAIL", "FAIL", "SUCCESS"], 0) := rfl

/-- C6: when a driver call raises and the run thus ends in FAIL, a
`no_response` alert is dispatched exactly when notifications are enabled and
`attempt ≥ maxAttempts`; with `maxAttempts = 2` and both attempts failing,
exactly one `no_response` fires, on attempt 2 and not on attempt 1. -/
theorem no_response_iff_retries_exhausted :
    (∀ (env : ExecEnv) (host : HostRec) (action_key : String) (attempt maxa : Nat)
        (tg : Bool) (errMsg : String) (start finish : Nat) (d : String),
      get_driver host.router_type = .ok d →
      ∃ out, execute_and_record env host action_key attempt maxa tg (.error errMsg)
          start finish = .ok out ∧
        out.alerts.count "no_response" = (if tg = true ∧ maxa ≤ attempt then 1 else 0)) ∧
    (run_rule env0 rule2 (some host0) outcomesFF times0).map
        (fun r => (r.attemptAlerts, r.alerts.count "no_response")) =
      .ok ([[], ["no_response"]], 1) := by
  constructor
  · intro env host action_key attempt maxa tg errMsg start finish d hd
    simp only [execute_and_record, hd, tryBlock]
    refine ⟨_, rfl, ?_⟩
    simp only [List.count_append]
    have h1 : ¬ (tg = true ∧ "FAIL" = "SUCCESS" ∧ action_key = "VER_LOGS_USSD") := by
      rintro ⟨_, hss, _⟩
      exact absurd hss (by decide)
    rw [if_neg h1]
    by_cases h2 : tg = true ∧ maxa ≤ attempt
    · rw [if_pos ⟨h2.1, trivial, h2.2⟩, if_pos h2]
      decide
    · rw [if_neg (fun hc => h2 ⟨hc.1, hc.2.2⟩), if_neg h2]
      decide
  · rfl

/-- C6 witness: notifications on, `attempt = maxAttempts = 2`, driver raises:
the general statement yields exactly one `no_response` dispatch. -/
theorem no_response_iff_retries_exhausted_witness :
    ∃ out, execute_and_record env0 host0 "PING" 2 2 true (.error "err") 0 50 = .ok out ∧
      out.alerts.count "no_response" = 1 := by
  obtain ⟨out, heq, hcount⟩ := no_response_iff_retries_exhausted.1 env0 host0 "PING" 2 2 true
    "err" 0 50 "MikroTikRouterOSRestDriver" rfl
  refine ⟨out, heq, ?_⟩
  rw [hcount]
  decide

/-- C7: once the driver resolves, `execute_and_record` persists exactly one
ActionRun whether the driver call succeeds or raises; a raised driver error
becomes status FAIL with the message captured and does not propagate, and in
both outcomes the row carries `finished_at` and
`duration_ms = finished_at - started_at`. -/
theorem execute_and_record_always_persists_one :
    ∀ (env : ExecEnv) (host : HostRec) (action_key : String) (attempt maxa : Nat)
      (tg : Bool) (driverCall : Except String DriverResult) (start finish : Nat) (d : String),
      get_driver host.router_type = .ok d →
      ∃ out, execute_and_record env host action_key attempt maxa tg driverCall
          start finish = .ok out ∧
        out.persisted = [out.run] ∧
        out.run.started_at = start ∧
        out.run.finished_at = finish ∧
        out.run.duration_ms = finish - start ∧
        (∀ e, driverCall = .error e →
          out.run.status = "FAIL" ∧ out.run.error_message = some e) ∧
        (∀ res, driverCall = .ok res →
          out.run.status = "SUCCESS" ∧ out.run.error_message = none) := by
  intro env host action_key attempt maxa tg driverCall start finish d hd
  simp only [execute_and_record, hd]
  cases driverCall with
  | error e =>
    refine ⟨_, rfl, rfl, rfl, rfl, rfl, ?_, ?_⟩
    · intro e' he
      cases he
      exact ⟨rfl, rfl⟩
    · intro res h
      cases h
  | ok res =>
    refine ⟨_, rfl, rfl, rfl, rfl, rfl, ?_, ?_⟩
    · intro e' he
      cases he
    · intro r hr
      cases hr
      by_cases hak : action_key = "VER_LOGS_USSD" <;>
        simp [tryBlock, hak]

/-- C7 witness: a successful driver call on a resolvable host persists one
run with the stated timing fields. -/
theorem execute_and_record_always_persists_one_witness :
    ∃ out, execute_and_record env0 host0 "PING" 1 1 true (.ok ⟨none, none⟩) 0 50 = .ok out ∧
      out.persisted = [out.run] ∧
      out.run.started_at = 0 ∧
      out.run.finished_at = 50 ∧
      out.run.duration_ms = 50 - 0 ∧
      (∀ e, (.ok ⟨none, none⟩ : Except String DriverResult) = .error e →
        out.run.status = "FAIL" ∧ out.run.error_message = some e) ∧
      (∀ res, (.ok ⟨none, none⟩ : Except String DriverResult) = .ok res →
        out.run.status = "SUCCESS" ∧ out.run.error_message = none) := by
  exact execute_and_record_always_persists_one env0 host0 "PING" 1 1 true (.ok ⟨none, none⟩)
    0 50 "MikroTikRouterOSRestDriver" rfl

/-- A host whose driver-type tag does not resolve in the registry. -/
def badHost : HostRec := ⟨2, "r2", "10.0.0.2", "BOGUS", true, true, none, none, none⟩

/-- A monitored host whose cached status is `offline`. -/
def hostOff : HostRec :=
  ⟨3, "r3", "10.0.0.3", "MIKROTIK_ROUTEROS_REST", true, true, some "offline", some 0, none⟩

/-- C8 counterexample: `get_driver` runs before the `try` block of
`check_host`, so a host with an unresolvable driver-type tag makes
`check_host` raise instead of producing an offline result, and in
`check_all_hosts` that single failure aborts the whole batch — the healthy
second host is never checked. -/
theorem check_host_unknown_driver_raises_counterexample :
    check_host badHost [] (.error "probe failed") 0 =
      .error ("Unknown router_type BOGUS. Normalized BOGUS. " ++
        "Available: MIKROTIK_ROUTEROS_REST, TP_LINK_OPENWRT_SSH") ∧
    check_all_hosts [⟨badHost, [], .error "probe failed"⟩, ⟨host0, [], .ok 5⟩] 0 =
      .error ("Unknown router_type BOGUS. Normalized BOGUS. " ++
        "Available: MIKROTIK_ROUTEROS_REST, TP_LINK_OPENWRT_SSH") := by
  exact ⟨rfl, rfl⟩

/-- C8 amended: once the host's driver type resolves, any error raised by the
probe is converted to an offline result with the error captured and does not
raise; a batch over hosts whose driver types all resolve returns one health
row per host, so probe failures cannot abort it. Driver-resolution failures,
by contrast, do raise out of `check_host` (see the counterexample). -/
theorem check_host_probe_error_offline_batch_safe :
    (∀ (host : HostRec) (history : List HealthRec) (e : String) (now : Nat) (d : String),
      get_driver host.router_type = .ok d →
      ∃ r, check_host host history (.error e) now = .ok r ∧
        r.health.status = "offline" ∧
        r.health.error_message = some e ∧
        r.host.last_status = some "offline") ∧
    (∀ (items : List BatchItem) (now : Nat),
      (∀ it ∈ items, ∃ d, get_driver it.host.router_type = .ok d) →
      ∃ l, check_all_hosts items now = .ok l ∧ l.length = items.length) := by
  have hok : ∀ (host : HostRec) (history : List HealthRec) (probe : Except String Nat)
      (now : Nat) (d : String), get_driver host.router_type = .ok d →
      ∃ r, check_host host history probe now = .ok r := by
    intro host history probe now d hd
    simp only [check_host, hd]
    exact ⟨_, rfl⟩
  constructor
  · intro host history e now d hd
    simp only [check_host, hd]
    exact ⟨_, rfl, rfl, rfl, rfl⟩
  · intro items now hres
    induction items with
    | nil => exact ⟨[], rfl, rfl⟩
    | cons it rest ih =>
      obtain ⟨d, hd⟩ := hres it (List.mem_cons_self it rest)
      obtain ⟨r, hr⟩ := hok it.host it.history it.probe now d hd
      obtain ⟨l, hl, hlen⟩ := ih fun x hx => hres x (List.mem_cons_of_mem it hx)
      refine ⟨r.health :: l, ?_, by simp [hlen]⟩
      simp only [check_all_hosts, hr, hl]

/-- C8 witness: a resolvable host whose probe raises yields an offline health
row without raising. -/
theorem check_host_probe_error_offline_batch_safe_witness :
    ∃ r, check_host host0 [] (.error "connection refused") 3 = .ok r ∧
      r.health.status = "offline" ∧
      r.health.error_message = some "connection refused" ∧
      r.host.last_status = some "offline" := by
  exact check_host_probe_error_offline_batch_safe.1 host0 [] "connection refused" 3
    "MikroTikRouterOSRestDriver" rfl

/-- C9 counterexample: `host0` has notifications enabled and the pre-first-
check default cached status (`None`, the spec's `unknown`); its first check
observes online, yet no `host_online` (recovered) alert is dispatched —
`if previous_status and ...` treats the null default as falsy. -/
theorem check_host_first_online_no_alert_counterexample :
    check_host host0 [] (.ok 5) 0 =
      .ok ⟨⟨1, "r1", "10.0.0.1", "MIKROTIK_ROUTEROS_REST", true, true,
            some "online", some 0, some 5⟩,
          [⟨1, "online", some 5, none, 0⟩],
          ⟨1, "online", some 5, none, 0⟩,
          []⟩ := by
  exact rfl

/-- C9 amended: with notifications enabled and a resolvable driver type, an
online observation dispatches the `host_online` recovered alert exactly when
the previous cached status is a non-null, non-empty string different from
"online"; no flap window is applied to that transition. On the first-ever
check (null previous status) no recovered alert fires. -/
theorem host_online_alert_iff_previous_nononline :
    ∀ (host : HostRec) (history : List HealthRec) (lat now : Nat) (d : String),
      get_driver host.router_type = .ok d → host.notify_enabled = true →
      ∃ r, check_host host history (.ok lat) now = .ok r ∧
        (r.alerts = ["host_online"] ↔
          (∃ p, host.last_status = some p ∧ p ≠ "" ∧ p ≠ "online")) ∧
        (r.alerts = ["host_online"] ∨ r.alerts = []) := by
  intro host history lat now d hd hn
  simp only [check_host, hd, hn]
  refine ⟨_, rfl, ?_, ?_⟩
  · cases hls : host.last_status with
    | none =>
      simp [hls]
    | some p =>
      by_cases hp : p ≠ "" ∧ p ≠ "online"
      · simp [hls, hp]
      · simp only [hls, if_true, String.reduceEq, if_neg hp]
        constructor
        · intro h
          cases h
        · rintro ⟨q, hq, hq1, hq2⟩
          cases hq
          exact absurd ⟨hq1, hq2⟩ hp
  · cases hls : host.last_status with
    | none => right; simp [hls]
    | some p =>
      by_cases hp : p ≠ "" ∧ p ≠ "online"
      · left; simp [hls, hp]
      · right; simp [hls, hp]

/-- C9 witness: a host previously cached offline that comes back online gets
the recovered alert immediately. -/
theorem host_online_alert_iff_previous_nononline_witness :
    ∃ r, check_host hostOff [] (.ok 7) 9 = .ok r ∧ r.alerts = ["host_online"] := by
  obtain ⟨r, heq, hiff, _⟩ := host_online_alert_iff_previous_nononline hostOff [] 7 9
    "MikroTikRouterOSRestDriver" rfl rfl
  exact ⟨r, heq, hiff.mpr ⟨"offline", rfl, by decide, by decide⟩⟩
